import Mathlib

/-!
# Verification of the chat initiation orchestrator (ChatContainer)

Shallow embedding of src/src/components/Chat/ChatContainer.js.

The orchestrator is a React component class, ChatContainer.  Its interesting
behaviour is:

* the constructor: initial state and the initChat EventBus subscription
  (note the two distinct .bind(this) calls);
* componentWillUnmount: EventBus.off with the stored handler reference;
* submitChatInitiation: the two-phase initiation sequence (descriptor
  acquisition via initiateChat or the chatSessionParameters bypass, then
  session opening), feature-flag derivation, state updates and callbacks;
* resetState: return to NotInitiated.

External collaborators (initiateChat, ChatSession.openChatSession,
setCurrentChatSessionInstance, EventBus, the constants modules) are not under
src/, so their outcomes are passed in as oracle parameters (the Except/Option
results of the two fallible async steps) or modelled from the spec where their
semantics decide a claim (EventBus, the registry slot, the two string
constants).

JavaScript dynamic values that the code branches on with truthiness, typeof
and property access are modelled with a small inductive JSVal mirroring the
JS coercion rules the code relies on.
-/

/-- A JavaScript value, restricted to the shapes ChatContainer.js manipulates:
undefined (also standing for an absent field), booleans, strings, and plain
objects as association lists of fields. -/
inductive JSVal : Type where
  | undefV : JSVal
  | boolV : Bool → JSVal
  | strV : String → JSVal
  | objV : List (String × JSVal) → JSVal
deriving Repr

/-- JS truthiness for the values of JSVal: undefined is falsy, a boolean is
itself, a string is truthy iff non-empty, an object is always truthy. -/
def jsTruthy : JSVal → Bool
  | .undefV => false
  | .boolV b => b
  | .strV s => !(s == "")
  | .objV _ => true

/-- JS a && b : returns a when a is falsy, otherwise b. -/
def jsAnd (a b : JSVal) : JSVal :=
  if jsTruthy a then b else a

/-- JS a || b : returns a when a is truthy, otherwise b. -/
def jsOr (a b : JSVal) : JSVal :=
  if jsTruthy a then a else b

/-- JS property access v[k] as the code uses it: field lookup on an object,
undefined on a missing field or a non-object.  (The code only dereferences
after an && guard, so the throwing cases of real JS are never reached.) -/
def jsGet (v : JSVal) (k : String) : JSVal :=
  match v with
  | .objV fields => (fields.lookup k).getD .undefV
  | _ => .undefV

/-- JS String.prototype.split(",") modelled character by character:
splits on every comma, keeping empty segments, and maps the empty string
to the one-element list containing the empty string. -/
def splitCommaChars : List Char → List (List Char)
  | [] => [[]]
  | c :: cs =>
      let rest := splitCommaChars cs
      if c = ',' then [] :: rest
      else
        match rest with
        | [] => [[c]]
        | h :: t => (c :: h) :: t

/-- s.split(",") for a Lean String. -/
def splitComma (s : String) : List String :=
  (splitCommaChars s.toList).map (fun l => String.mk l)

/-- Modelled from the spec: the markdown-text content-type literal
ContentType.MESSAGE_CONTENT_TYPE.TEXT_MARKDOWN, imported from
datamodel/Model.js which is not under src/. -/
def TEXT_MARKDOWN : String := "text/markdown"

/-- Modelled from the spec: the attachments capability key
CHAT_FEATURE_TYPES.ATTACHMENTS, imported from constants.js which is not
under src/. -/
def ATTACHMENTS : String := "ATTACHMENTS"

/-- The fields of the caller-supplied initiation input that
submitChatInitiation reads.  All are dynamic JS values (possibly absent,
hence JSVal). -/
structure InitiationInput : Type where
  name : JSVal
  region : JSVal
  stage : JSVal
  language : JSVal
  featurePermissions : JSVal
  supportedMessagingContentTypes : JSVal
  chatSessionParameters : JSVal
  authenticationRedirectUri : JSVal
  authenticationIdentityProvider : JSVal
deriving Repr

/-- The customizationParams object built at the top of submitChatInitiation:
each field defaults to the empty string via JS ||. -/
structure CustomizationParams : Type where
  authenticationRedirectUri : JSVal
  authenticationIdentityProvider : JSVal
deriving Repr

def customizationParamsOf (input : InitiationInput) : CustomizationParams :=
  { authenticationRedirectUri := jsOr input.authenticationRedirectUri (.strV ""),
    authenticationIdentityProvider := jsOr input.authenticationIdentityProvider (.strV "") }

/-- A ChatSession handle as constructed by openChatSession:
new ChatSession(chatDetails, name, region, stage, customizationParams).
The constructor never fails (spec section 6); the handle records its
construction arguments. -/
structure ChatSessionObj : Type where
  chatDetails : JSVal
  name : JSVal
  region : JSVal
  stage : JSVal
  customization : CustomizationParams
deriving Repr

/-- The composerConfig object stored in component state on success.
attachmentsEnabled is the raw JS value of the && / || chain (it can be
undefined); richMessagingEnabled is a genuine boolean.  The initial state
field composerConfig = (empty object) is modelled with both fields
undefined. -/
structure ComposerConfig : Type where
  attachmentsEnabled : JSVal
  richMessagingEnabled : JSVal
deriving Repr

/-- The React component state of ChatContainer. -/
structure CCState : Type where
  chatSession : Option ChatSessionObj
  composerConfig : ComposerConfig
  status : String
  language : JSVal
deriving Repr

/-- this.state as set in the constructor. -/
def initialState : CCState :=
  { chatSession := none,
    composerConfig := { attachmentsEnabled := .undefV, richMessagingEnabled := .undefV },
    status := "NotInitiated",
    language := .strV "en_US" }

/-- Step 1 of submitChatInitiation, descriptor acquisition:
input.chatSessionParameters ? startChatResult wrapper : await initiateChat(input).
The outcome of the external initiateChat call is the oracle factoryResult. -/
def descriptorOf (factoryResult : Except String JSVal) (input : InitiationInput) :
    Except String JSVal :=
  if jsTruthy input.chatSessionParameters then
    .ok (.objV [("startChatResult", input.chatSessionParameters)])
  else
    factoryResult

/-- The ChatSession built by openChatSession from the descriptor and the
input metadata. -/
def sessionOf (chatDetails : JSVal) (input : InitiationInput) : ChatSessionObj :=
  { chatDetails := chatDetails,
    name := input.name,
    region := input.region,
    stage := input.stage,
    customization := customizationParamsOf input }

/-- The attachmentsEnabled derivation:
(input.featurePermissions && input.featurePermissions[ATTACHMENTS]) ||
(chatDetails.featurePermissions && chatDetails.featurePermissions[ATTACHMENTS]). -/
def attachmentsEnabledOf (input : InitiationInput) (chatDetails : JSVal) : JSVal :=
  jsOr (jsAnd input.featurePermissions (jsGet input.featurePermissions ATTACHMENTS))
       (jsAnd (jsGet chatDetails "featurePermissions")
              (jsGet (jsGet chatDetails "featurePermissions") ATTACHMENTS))

/-- The richMessagingEnabled derivation:
typeof v === "string" ? v.split(",").includes(TEXT_MARKDOWN) : false. -/
def richMessagingEnabledOf (v : JSVal) : Bool :=
  match v with
  | .strV s => (splitComma s).contains TEXT_MARKDOWN
  | _ => false

/-- The composerConfig stored on success, as a pure function of the
initiation input and the descriptor. -/
def composerConfigOf (input : InitiationInput) (chatDetails : JSVal) : ComposerConfig :=
  { attachmentsEnabled := attachmentsEnabledOf input chatDetails,
    richMessagingEnabled := .boolV (richMessagingEnabledOf input.supportedMessagingContentTypes) }

/-- The observable effects of one submitChatInitiation run, in execution
order: state updates, the two awaited external calls, the registry write
and the optional callbacks. -/
inductive Ev : Type where
  | setStatusInitiating : Ev
  | factoryCall : Ev
  | sessionOpen : ChatSessionObj → Ev
  | registerCurrent : ChatSessionObj → Ev
  | setStateInitiated : Ev
  | successCb : ChatSessionObj → Ev
  | setStatusFailed : Ev
  | failureCb : String → Ev
deriving Repr

/-- Result of one submitChatInitiation run: final component state, final
registry slot (setCurrentChatSessionInstance; modelled from the spec as a
single last-write-wins slot, ChatSession.js is not under src/), and the
ordered effect trace. -/
structure RunResult : Type where
  cc : CCState
  registry : Option ChatSessionObj
  trace : List Ev
deriving Repr

/-- The error, if any, that the try block of a given attempt throws:
the factory rejection when the Factory path is taken and fails, otherwise
the session-open rejection. -/
def attemptError (factoryResult : Except String JSVal) (openErr : Option String)
    (input : InitiationInput) : Option String :=
  match descriptorOf factoryResult input with
  | .error e => some e
  | .ok _ => openErr

/-- submitChatInitiation(input, success, failure).

Oracle parameters: factoryResult is the settled outcome of
await initiateChat(input); openErr is the rejection (if any) of
chatSession.openChatSession(); hasSuccess / hasFailure say whether the
optional callbacks were provided.  st and reg are the component state and
the registry slot before the call.

The body mirrors the source line by line:
setState Initiating first (synchronously, before either await), build
customizationParams, acquire the descriptor, open the session (the handle is
constructed and its onChatClose handler registered before the open), then on
success register the session as current, derive the flags and language,
setState Initiated and invoke success; on any thrown error setState
InitiateFailed (touching only status) and invoke failure with that error. -/
def submitChatInitiation (factoryResult : Except String JSVal) (openErr : Option String)
    (hasSuccess hasFailure : Bool) (input : InitiationInput)
    (st : CCState) (reg : Option ChatSessionObj) : RunResult :=
  let st1 : CCState := { st with status := "Initiating" }
  let preTrace : List Ev :=
    if jsTruthy input.chatSessionParameters then [.setStatusInitiating]
    else [.setStatusInitiating, .factoryCall]
  match descriptorOf factoryResult input with
  | .error e =>
      { cc := { st1 with status := "InitiateFailed" },
        registry := reg,
        trace := preTrace ++ [.setStatusFailed]
                   ++ (if hasFailure then [.failureCb e] else []) }
  | .ok chatDetails =>
      let sess := sessionOf chatDetails input
      match openErr with
      | some e =>
          { cc := { st1 with status := "InitiateFailed" },
            registry := reg,
            trace := preTrace ++ [.sessionOpen sess, .setStatusFailed]
                       ++ (if hasFailure then [.failureCb e] else []) }
      | none =>
          let st2 : CCState :=
            { st1 with
              status := "Initiated",
              chatSession := some sess,
              composerConfig := composerConfigOf input chatDetails,
              language := jsOr input.language (.strV "en_US") }
          { cc := st2,
            registry := some sess,
            trace := preTrace ++ [.sessionOpen sess, .registerCurrent sess, .setStateInitiated]
                       ++ (if hasSuccess then [.successCb sess] else []) }

/-- resetState: this.setState with status NotInitiated and chatSession null;
no other field is touched and no external call is made. -/
def resetState (s : CCState) : CCState :=
  { s with status := "NotInitiated", chatSession := none }

/-- Recognises the failure-callback events of a trace. -/
def isFailureCbEv : Ev → Bool
  | .failureCb _ => true
  | _ => false

/-- Recognises the success-callback events of a trace. -/
def isSuccessCbEv : Ev → Bool
  | .successCb _ => true
  | _ => false

/-! ## EventBus subscription lifecycle

eventbus.js is not under src/; its on / off / trigger contract is modelled
from the spec (section 4.2): a subscription list in subscription order, off
removes a specific handler reference and is a no-op for a handler not
subscribed.  Handler references are modelled by numeric identities: each
JS .bind(this) call yields a fresh function object, so the two bind calls in
the ChatContainer constructor yield two distinct references. -/

/-- Modelled from the spec: EventBus.on(topic, handler) appends the
subscription. -/
def busOn (bus : List (String × Nat)) (topic : String) (h : Nat) : List (String × Nat) :=
  bus ++ [(topic, h)]

/-- Modelled from the spec: EventBus.off(handler) removes the subscriptions
holding exactly that handler reference; a no-op when none does. -/
def busOff (bus : List (String × Nat)) (h : Nat) : List (String × Nat) :=
  bus.filter (fun p => p.2 != h)

/-- What the ChatContainer constructor produces, as far as the subscription
lifecycle is concerned: the handler reference stored in
this.submitChatInitiationHandler (the first bind), the handler reference
actually subscribed to initChat (the second, distinct bind), and the bus
after the EventBus.on call.  fresh is the next unused function identity. -/
structure ChatContainerHandles : Type where
  submitChatInitiationHandler : Nat
  subscribedHandler : Nat
  bus : List (String × Nat)
deriving Repr

/-- The constructor:
this.submitChatInitiationHandler = this.initiateChatSession.bind(this);
EventBus.on("initChat", this.initiateChatSession.bind(this));
Two .bind(this) calls create two distinct function objects (fresh and
fresh + 1). -/
def constructChatContainer (bus0 : List (String × Nat)) (fresh : Nat) :
    ChatContainerHandles :=
  { submitChatInitiationHandler := fresh,
    subscribedHandler := fresh + 1,
    bus := busOn bus0 "initChat" (fresh + 1) }

/-- componentWillUnmount: EventBus.off(this.submitChatInitiationHandler). -/
def componentWillUnmount (h : ChatContainerHandles) : List (String × Nat) :=
  busOff h.bus h.submitChatInitiationHandler

/-! ## Shared helper definitions and lemmas -/

/-- An initiation input with every field absent (undefined). -/
def baseInput : InitiationInput :=
  { name := .undefV, region := .undefV, stage := .undefV, language := .undefV,
    featurePermissions := .undefV, supportedMessagingContentTypes := .undefV,
    chatSessionParameters := .undefV, authenticationRedirectUri := .undefV,
    authenticationIdentityProvider := .undefV }

/-- A component state that already holds a session from an earlier
successful initiation, used to witness the failure frame condition. -/
def stWithSession : CCState :=
  { initialState with
    chatSession := some (sessionOf (JSVal.objV []) baseInput),
    status := "Initiated" }

/-- An initiation input carrying pre-built session parameters. -/
def inputB : InitiationInput :=
  { baseInput with chatSessionParameters := JSVal.strV "p" }

/-- An initiation input whose language field is present but the empty
string (a falsy value). -/
def inputLangEmpty : InitiationInput :=
  { baseInput with language := JSVal.strV "" }

lemma jsTruthy_jsOr (a b : JSVal) :
    jsTruthy (jsOr a b) = (jsTruthy a || jsTruthy b) := by
  unfold jsOr
  by_cases h : jsTruthy a <;> simp [h]

lemma jsTruthy_jsAnd_get (a : JSVal) (k : String) :
    jsTruthy (jsAnd a (jsGet a k)) = jsTruthy (jsGet a k) := by
  cases a with
  | undefV => simp [jsAnd, jsGet, jsTruthy]
  | boolV b => cases b <;> simp [jsAnd, jsGet, jsTruthy]
  | strV s => by_cases h : s = "" <;> simp [jsAnd, jsGet, jsTruthy, h]
  | objV fields => simp [jsAnd, jsGet, jsTruthy]

/-- Claim C5: the derived attachmentsEnabled flag is truthy exactly when the
initiation input's feature-permission mapping or the descriptor's
feature-permission mapping has a truthy entry for the attachments capability
(true for boolean-valued mappings that mark it true), and the flag is false
(the value is falsy) when both mappings are absent. -/
theorem attachmentsEnabled_spec (i : InitiationInput) (cd : JSVal) :
    (jsTruthy (attachmentsEnabledOf i cd) = true ↔
      (jsTruthy (jsGet i.featurePermissions ATTACHMENTS) = true ∨
       jsTruthy (jsGet (jsGet cd "featurePermissions") ATTACHMENTS) = true)) ∧
    (i.featurePermissions = .undefV → jsGet cd "featurePermissions" = .undefV →
      jsTruthy (attachmentsEnabledOf i cd) = false) := by
  constructor
  · rw [attachmentsEnabledOf, jsTruthy_jsOr, jsTruthy_jsAnd_get, jsTruthy_jsAnd_get]
    simp [Bool.or_eq_true]
  · intro h1 h2
    rw [attachmentsEnabledOf, h1, h2]
    simp [jsAnd, jsOr, jsGet, jsTruthy]

/-- Witness for attachmentsEnabled_spec: with both feature-permission
mappings absent the flag is falsy. -/
theorem attachmentsEnabled_spec_witness :
    baseInput.featurePermissions = JSVal.undefV ∧
    jsGet (JSVal.objV []) "featurePermissions" = JSVal.undefV ∧
    jsTruthy (attachmentsEnabledOf baseInput (JSVal.objV [])) = false :=
  ⟨rfl, rfl, (attachmentsEnabled_spec baseInput (JSVal.objV [])).2 rfl rfl⟩

/-- Claim C6: richMessagingEnabled is true exactly when the
supported-messaging-content-types value is a string whose comma-separated
entries contain the markdown-text content-type literal as one entry; it is
false when the field is absent (undefined), not a string (a boolean or an
object), or the empty string. -/
theorem richMessagingEnabled_spec :
    (∀ v : JSVal, richMessagingEnabledOf v = true ↔
      ∃ s : String, v = .strV s ∧ TEXT_MARKDOWN ∈ splitComma s) ∧
    richMessagingEnabledOf .undefV = false ∧
    richMessagingEnabledOf (.strV "") = false ∧
    (∀ b : Bool, richMessagingEnabledOf (.boolV b) = false) ∧
    (∀ fields : List (String × JSVal), richMessagingEnabledOf (.objV fields) = false) := by
  refine ⟨?_, rfl, by decide, fun b => rfl, fun fields => rfl⟩
  intro v
  cases v with
  | strV s => simp [richMessagingEnabledOf, List.contains, List.elem_iff]
  | undefV => simp [richMessagingEnabledOf]
  | boolV b => simp [richMessagingEnabledOf]
  | objV fields => simp [richMessagingEnabledOf]

/-- Claim C8: resetState, from any component state, sets status to
NotInitiated and clears the session reference, and changes nothing else:
composerConfig and language are untouched (and the definition performs no
external operation, being a pure state update). -/
theorem resetState_spec (s : CCState) :
    (resetState s).status = "NotInitiated" ∧
    (resetState s).chatSession = none ∧
    (resetState s).composerConfig = s.composerConfig ∧
    (resetState s).language = s.language :=
  ⟨rfl, rfl, rfl, rfl⟩

/-- Claim C3 (refuting theorem): after construction and teardown, the
initChat subscription made by the constructor is still on the bus.  The
constructor binds initiateChatSession twice, storing the first bound
reference but subscribing the second, distinct one; componentWillUnmount
therefore removes nothing.  This holds for every prior bus content and every
pair of fresh function identities. -/
theorem initChat_handler_survives_unmount (bus0 : List (String × Nat)) (fresh : Nat) :
    ("initChat", (constructChatContainer bus0 fresh).subscribedHandler) ∈
      componentWillUnmount (constructChatContainer bus0 fresh) ∧
    (constructChatContainer bus0 fresh).submitChatInitiationHandler ≠
      (constructChatContainer bus0 fresh).subscribedHandler := by
  constructor
  · simp [constructChatContainer, componentWillUnmount, busOn, busOff, List.mem_filter]
  · simp [constructChatContainer]

/-- Claim C7: every submitChatInitiation run sets the status to Initiating as
its first effect, synchronously before the factory call and the session open
(which appear strictly later in the effect trace), for every input, prior
state and outcome of the two async steps. -/
theorem initiating_set_first (factoryResult : Except String JSVal) (openErr : Option String)
    (hasSuccess hasFailure : Bool) (input : InitiationInput)
    (st : CCState) (reg : Option ChatSessionObj) :
    (submitChatInitiation factoryResult openErr hasSuccess hasFailure input st reg).trace.head? =
      some Ev.setStatusInitiating := by
  unfold submitChatInitiation
  cases hd : descriptorOf factoryResult input with
  | error e =>
      by_cases hcs : jsTruthy input.chatSessionParameters <;> simp [hd, hcs]
  | ok cd =>
      cases openErr <;> by_cases hcs : jsTruthy input.chatSessionParameters <;> simp [hd, hcs]

/-- Claim C1: when descriptor acquisition or session opening fails, the run
ends with status InitiateFailed, the registry slot is exactly what it was
before the attempt, the component state retains no session reference from the
attempt (its chatSession field is unchanged), and the failure callback, when
provided, is invoked exactly once with the unmodified error. -/
theorem initiation_failure_path (factoryResult : Except String JSVal) (openErr : Option String)
    (hasSuccess hasFailure : Bool) (input : InitiationInput)
    (st : CCState) (reg : Option ChatSessionObj) (e : String)
    (h : attemptError factoryResult openErr input = some e) :
    (submitChatInitiation factoryResult openErr hasSuccess hasFailure input st reg).cc.status = "InitiateFailed" ∧
    (submitChatInitiation factoryResult openErr hasSuccess hasFailure input st reg).registry = reg ∧
    (submitChatInitiation factoryResult openErr hasSuccess hasFailure input st reg).cc.chatSession = st.chatSession ∧
    (submitChatInitiation factoryResult openErr hasSuccess hasFailure input st reg).trace.filter isFailureCbEv =
      (if hasFailure then [Ev.failureCb e] else []) := by
  unfold attemptError at h
  unfold submitChatInitiation
  cases hd : descriptorOf factoryResult input with
  | error e2 =>
      simp only [hd] at h
      injection h with he
      subst he
      refine ⟨rfl, rfl, rfl, ?_⟩
      by_cases hcs : jsTruthy input.chatSessionParameters <;>
        cases hasFailure <;> simp [hcs, isFailureCbEv]
  | ok cd =>
      simp only [hd] at h
      subst h
      refine ⟨rfl, rfl, rfl, ?_⟩
      by_cases hcs : jsTruthy input.chatSessionParameters <;>
        cases hasFailure <;> simp [hcs, isFailureCbEv]

/-- Witness for initiation_failure_path: a concrete factory rejection. -/
theorem initiation_failure_path_witness :
    attemptError (Except.error "boom") none baseInput = some "boom" ∧
    ((submitChatInitiation (Except.error "boom") none false true baseInput initialState none).cc.status = "InitiateFailed" ∧
     (submitChatInitiation (Except.error "boom") none false true baseInput initialState none).registry = none ∧
     (submitChatInitiation (Except.error "boom") none false true baseInput initialState none).cc.chatSession = initialState.chatSession ∧
     (submitChatInitiation (Except.error "boom") none false true baseInput initialState none).trace.filter isFailureCbEv =
       [Ev.failureCb "boom"]) :=
  ⟨rfl, initiation_failure_path (Except.error "boom") none false true baseInput initialState none "boom" rfl⟩

/-- Claim C2: when both steps succeed, the run ends with status Initiated,
the registry holds exactly the newly created session, so does the component
state, the success callback when provided is invoked exactly once with that
session, and the stored composerConfig equals composerConfigOf input
descriptor, a pure function of the initiation input and the descriptor. -/
theorem initiation_success_path (factoryResult : Except String JSVal) (openErr : Option String)
    (hasSuccess hasFailure : Bool) (input : InitiationInput)
    (st : CCState) (reg : Option ChatSessionObj) (cd : JSVal)
    (hd : descriptorOf factoryResult input = .ok cd) (ho : openErr = none) :
    (submitChatInitiation factoryResult openErr hasSuccess hasFailure input st reg).cc.status = "Initiated" ∧
    (submitChatInitiation factoryResult openErr hasSuccess hasFailure input st reg).registry =
      some (sessionOf cd input) ∧
    (submitChatInitiation factoryResult openErr hasSuccess hasFailure input st reg).cc.chatSession =
      some (sessionOf cd input) ∧
    (submitChatInitiation factoryResult openErr hasSuccess hasFailure input st reg).trace.filter isSuccessCbEv =
      (if hasSuccess then [Ev.successCb (sessionOf cd input)] else []) ∧
    (submitChatInitiation factoryResult openErr hasSuccess hasFailure input st reg).cc.composerConfig =
      composerConfigOf input cd := by
  subst ho
  unfold submitChatInitiation
  rw [hd]
  refine ⟨rfl, rfl, rfl, ?_, rfl⟩
  by_cases hcs : jsTruthy input.chatSessionParameters <;>
    cases hasSuccess <;> simp [hcs, isSuccessCbEv]

/-- Witness for initiation_success_path: a concrete fully successful run. -/
theorem initiation_success_path_witness :
    descriptorOf (Except.ok (JSVal.objV [])) baseInput = Except.ok (JSVal.objV []) ∧
    ((submitChatInitiation (Except.ok (JSVal.objV [])) none true false baseInput initialState none).cc.status = "Initiated" ∧
     (submitChatInitiation (Except.ok (JSVal.objV [])) none true false baseInput initialState none).registry =
       some (sessionOf (JSVal.objV []) baseInput) ∧
     (submitChatInitiation (Except.ok (JSVal.objV [])) none true false baseInput initialState none).cc.chatSession =
       some (sessionOf (JSVal.objV []) baseInput) ∧
     (submitChatInitiation (Except.ok (JSVal.objV [])) none true false baseInput initialState none).trace.filter isSuccessCbEv =
       [Ev.successCb (sessionOf (JSVal.objV []) baseInput)] ∧
     (submitChatInitiation (Except.ok (JSVal.objV [])) none true false baseInput initialState none).cc.composerConfig =
       composerConfigOf baseInput (JSVal.objV [])) :=
  ⟨rfl, initiation_success_path (Except.ok (JSVal.objV [])) none true false baseInput initialState none
    (JSVal.objV []) rfl rfl⟩

/-- Claim C10: on any failed attempt only the status field is mutated: the
previously stored chatSession, composerConfig and language survive, so after
an earlier success the state can hold the old session while reading
InitiateFailed. -/
theorem failure_frame (factoryResult : Except String JSVal) (openErr : Option String)
    (hasSuccess hasFailure : Bool) (input : InitiationInput)
    (st : CCState) (reg : Option ChatSessionObj) (e : String)
    (h : attemptError factoryResult openErr input = some e) :
    (submitChatInitiation factoryResult openErr hasSuccess hasFailure input st reg).cc.status = "InitiateFailed" ∧
    (submitChatInitiation factoryResult openErr hasSuccess hasFailure input st reg).cc.chatSession = st.chatSession ∧
    (submitChatInitiation factoryResult openErr hasSuccess hasFailure input st reg).cc.composerConfig = st.composerConfig ∧
    (submitChatInitiation factoryResult openErr hasSuccess hasFailure input st reg).cc.language = st.language := by
  unfold attemptError at h
  unfold submitChatInitiation
  cases hd : descriptorOf factoryResult input with
  | error e2 =>
      exact ⟨rfl, rfl, rfl, rfl⟩
  | ok cd =>
      simp only [hd] at h
      subst h
      exact ⟨rfl, rfl, rfl, rfl⟩


/-- Witness for failure_frame: a factory rejection arriving while the state
still holds the session of an earlier success. -/
theorem failure_frame_witness :
    attemptError (Except.error "late") none baseInput = some "late" ∧
    ((submitChatInitiation (Except.error "late") none false false baseInput stWithSession none).cc.status = "InitiateFailed" ∧
     (submitChatInitiation (Except.error "late") none false false baseInput stWithSession none).cc.chatSession = stWithSession.chatSession ∧
     (submitChatInitiation (Except.error "late") none false false baseInput stWithSession none).cc.composerConfig = stWithSession.composerConfig ∧
     (submitChatInitiation (Except.error "late") none false false baseInput stWithSession none).cc.language = stWithSession.language) :=
  ⟨rfl, failure_frame (Except.error "late") none false false baseInput stWithSession none "late" rfl⟩


/-- Claim C4 counterexample: with chatSessionParameters present, the
descriptor handed to session opening is the object wrapping the value under
the startChatResult key, which is not the chatSessionParameters value itself:
the claim that the descriptor is that value directly fails on this input. -/
theorem chatSessionParameters_not_descriptor_cex :
    jsTruthy inputB.chatSessionParameters = true ∧
    (submitChatInitiation (Except.ok (JSVal.strV "q")) none false false inputB initialState none).cc.chatSession =
      some (sessionOf (JSVal.objV [("startChatResult", JSVal.strV "p")]) inputB) ∧
    descriptorOf (Except.ok (JSVal.strV "q")) inputB =
      Except.ok (JSVal.objV [("startChatResult", JSVal.strV "p")]) ∧
    ¬ descriptorOf (Except.ok (JSVal.strV "q")) inputB = Except.ok inputB.chatSessionParameters := by
  refine ⟨rfl, rfl, rfl, ?_⟩
  intro hcontra
  have h1 : (Except.ok (JSVal.objV [("startChatResult", JSVal.strV "p")]) : Except String JSVal) =
      Except.ok (JSVal.strV "p") := hcontra
  injection h1 with h2
  nomatch h2

/-- Claim C4 as amended: when chatSessionParameters is present (truthy) the
Factory is never invoked, and the descriptor used for session opening is the
object wrapping the chatSessionParameters value directly (unmodified) under
the startChatResult key. -/
theorem chatSessionParameters_bypass (factoryResult : Except String JSVal) (openErr : Option String)
    (hasSuccess hasFailure : Bool) (input : InitiationInput)
    (st : CCState) (reg : Option ChatSessionObj)
    (h : jsTruthy input.chatSessionParameters = true) :
    Ev.factoryCall ∉ (submitChatInitiation factoryResult openErr hasSuccess hasFailure input st reg).trace ∧
    descriptorOf factoryResult input =
      Except.ok (JSVal.objV [("startChatResult", input.chatSessionParameters)]) := by
  constructor
  · unfold submitChatInitiation
    cases hd : descriptorOf factoryResult input with
    | error e =>
        rw [descriptorOf, if_pos h] at hd
        nomatch hd
    | ok cd =>
        cases openErr <;> cases hasSuccess <;> cases hasFailure <;> simp [h]
  · rw [descriptorOf, if_pos h]

/-- Witness for chatSessionParameters_bypass at a concrete input. -/
theorem chatSessionParameters_bypass_witness :
    jsTruthy inputB.chatSessionParameters = true ∧
    (Ev.factoryCall ∉ (submitChatInitiation (Except.ok (JSVal.strV "q")) none true true inputB initialState none).trace ∧
     descriptorOf (Except.ok (JSVal.strV "q")) inputB =
       Except.ok (JSVal.objV [("startChatResult", inputB.chatSessionParameters)])) :=
  ⟨rfl, chatSessionParameters_bypass (Except.ok (JSVal.strV "q")) none true true inputB initialState none rfl⟩


/-- Claim C9 counterexample: a successful initiation whose input carries a
present language field (the empty string) stores en_US, not the input value,
so the stored language does not equal input.language whenever it is present. -/
theorem language_empty_string_cex :
    inputLangEmpty.language = JSVal.strV "" ∧
    (submitChatInitiation (Except.ok (JSVal.objV [])) none false false inputLangEmpty initialState none).cc.status =
      "Initiated" ∧
    (submitChatInitiation (Except.ok (JSVal.objV [])) none false false inputLangEmpty initialState none).cc.language =
      JSVal.strV "en_US" ∧
    ¬ (submitChatInitiation (Except.ok (JSVal.objV [])) none false false inputLangEmpty initialState none).cc.language =
        inputLangEmpty.language := by
  refine ⟨rfl, rfl, rfl, ?_⟩
  intro hcontra
  have h1 : JSVal.strV "en_US" = JSVal.strV "" := hcontra
  injection h1 with h2
  exact absurd h2 (by decide)

/-- Claim C9 as amended: on a successful initiation the stored language
equals input.language when that value is truthy (present and non-empty), and
defaults to en_US when input.language is omitted or otherwise falsy. -/
theorem effective_language_spec (factoryResult : Except String JSVal) (openErr : Option String)
    (hasSuccess hasFailure : Bool) (input : InitiationInput)
    (st : CCState) (reg : Option ChatSessionObj) (cd : JSVal)
    (hd : descriptorOf factoryResult input = .ok cd) (ho : openErr = none) :
    (jsTruthy input.language = true →
      (submitChatInitiation factoryResult openErr hasSuccess hasFailure input st reg).cc.language =
        input.language) ∧
    (jsTruthy input.language = false →
      (submitChatInitiation factoryResult openErr hasSuccess hasFailure input st reg).cc.language =
        JSVal.strV "en_US") := by
  subst ho
  unfold submitChatInitiation
  rw [hd]
  constructor
  · intro hl
    show jsOr input.language (JSVal.strV "en_US") = input.language
    simp [jsOr, hl]
  · intro hl
    show jsOr input.language (JSVal.strV "en_US") = JSVal.strV "en_US"
    simp [jsOr, hl]

/-- Witness for effective_language_spec: with language omitted the stored
language is en_US. -/
theorem effective_language_spec_witness :
    descriptorOf (Except.ok (JSVal.objV [])) baseInput = Except.ok (JSVal.objV []) ∧
    jsTruthy baseInput.language = false ∧
    (submitChatInitiation (Except.ok (JSVal.objV [])) none false false baseInput initialState none).cc.language =
      JSVal.strV "en_US" :=
  ⟨rfl, rfl,
    (effective_language_spec (Except.ok (JSVal.objV [])) none false false baseInput initialState none
      (JSVal.objV []) rfl rfl).2 rfl⟩
